import Mathlib

set_option maxRecDepth 100000

/-!
Shallow embedding of the MC6845/RP2040 CGA video generator firmware
(`src/main.c`) and the accompanying MC6845 demo program
(`src/unnamed/part_000`).

Machine integers are modelled as `Nat` with explicit `% 2^w` masking at
the points where the C code truncates (the data bus is 8 bits wide, the
register-select field is 5 bits, the pin snapshot is masked to 17 bits).
C array reads are modelled with `List.get?`: an out-of-bounds read — which
is undefined behaviour in the C source — yields `none`, and the iteration
that performs it is itself modelled as undefined (`Option` propagation).

Side effects on the hardware are recorded as an explicit event trace:
data-bus direction changes, data-bus writes, the two 1 microsecond holds of
each enable pulse, busy waits, and (as completion labels emitted exactly by
the register-access handshakes) register writes and reads.
-/

/-- Observable hardware effects emitted by the firmware. `regWrite`
and `regRead` are completion labels emitted exactly once per two-phase
register-access handshake; the remaining constructors mirror individual
bus-level operations of the source. Pin-level control strobes (CS/RS/RW/E
levels) are folded into the handshake functions; the `sleep_us` holds of
`pulse_enable` are retained as events. -/
inductive Event where
  | dataBusSetDir (out : Bool)
  | dataBusWrite (value : Nat)
  | sleepUs (us : Nat)
  | busyWaitMs (ms : Nat)
  | regWrite (index : Nat) (value : Nat)
  | regRead (index : Nat)
deriving DecidableEq, Repr

/-- Delay primitives: `sleep_us` (inside `pulse_enable`) and `busy_wait_ms`. -/
def Event.isDelay : Event → Bool
  | .sleepUs _ => true
  | .busyWaitMs _ => true
  | _ => false

/-- Register-write completion labels. -/
def Event.isRegWrite : Event → Bool
  | .regWrite _ _ => true
  | _ => false

/-- Register-read completion labels. -/
def Event.isRegRead : Event → Bool
  | .regRead _ => true
  | _ => false

/-- A switch of the data bus to Input direction. -/
def Event.isDirIn : Event → Bool
  | .dataBusSetDir false => true
  | _ => false

/-- The register-write completion labels of a trace. -/
def regWrites (tr : List Event) : List Event := tr.filter Event.isRegWrite

/-- Trace of `pulse_enable`: E is raised and lowered with a 1 microsecond
hold after each edge (`sleep_us(1)` twice); the E pin levels themselves are
not observable effects we track. -/
def pulseTrace : List Event := [.sleepUs 1, .sleepUs 1]

/-- Modelled from the spec: the external MC6845 controller, which is not part
of this repository, viewed as a register file latched by the write handshake.
`addrLatch` is the currently selected register index (5 bits), `regs` the
32-entry register file. -/
structure Chip where
  addrLatch : Nat
  regs : List Nat
deriving DecidableEq, Repr

/-- Modelled from the spec: the readable subset of the configuration
registers. The spec fixes its size at eight registers among the sixteen
written during initialization; taken here as R8 through R15 (the
interlace/scanline/cursor/address group). -/
def Chip.readable (r : Nat) : Bool := decide (8 ≤ r ∧ r ≤ 15)

/-- Modelled from the spec: on the falling edge of E while the chip is
selected (CS low) in write mode (RW low), the controller latches the data
bus: with RS low the bus value (masked to 5 bits) becomes the selected
register index; with RS high the bus value is stored into the selected
register. In read mode or while deselected the strobe changes nothing. -/
def Chip.onEnableFall (c : Chip) (cs rw rs : Bool) (bus : Nat) : Chip :=
  if cs = false && rw = false then
    if rs = false then { c with addrLatch := bus % 32 }
    else { c with regs := c.regs.set c.addrLatch (bus % 256) }
  else c

/-- Modelled from the spec: in read mode (CS low, RW high, RS high) the
controller drives the selected register onto the bus when that register is
readable; otherwise the bus floats, modelled as `none`. -/
def Chip.busOutput (c : Chip) (cs rw rs : Bool) : Option Nat :=
  if cs = false && rw = true && rs = true && Chip.readable c.addrLatch then
    c.regs[c.addrLatch]?
  else none

/-- The controller at power-on: register index 0 selected, all registers 0. -/
def chipPowerOn : Chip := ⟨0, List.replicate 32 0⟩

namespace Main

/-- The two display modes of `main.c` (`video_mode_t`). -/
inductive VideoMode where
  | text
  | graphics
deriving DecidableEq, Repr

/-- `TEXT_BUFFER_SIZE` = 80 * 25. -/
def TEXT_BUFFER_SIZE : Nat := 80 * 25

/-- `GRAPHICS_BUFFER_SIZE` = 8000 (320x200, 4 pixels per byte). -/
def GRAPHICS_BUFFER_SIZE : Nat := 8000

/-- Modelled from the spec: the font table `cga_font_8x8` lives in `rom.h`,
which is not under `src/`; the spec fixes its shape as a 256-glyph,
8-bytes-per-glyph table, 2048 bytes. Its contents do not matter to any
claim, so the table itself is passed around as an arbitrary byte-valued
function `font : Nat → Nat`; only this size constant is fixed. -/
def CGA_FONT_SIZE : Nat := 2048

/-- The `mc6845_cga_80x25` preset table written during initialization. -/
def mc6845_cga_80x25 : List Nat :=
  [0x71, 0x50, 0x5A, 0x0A, 0x1F, 0x06, 0x19, 0x1C,
   0x02, 0x07, 0x06, 0x07, 0x00, 0x00, 0x00, 0x00]

/-- State of the firmware of `main.c` together with the modelled external
controller. `dataBus` is the byte currently driven on D0..D7, `busDirOut`
the direction of the data-bus pin group, `prevAddr` the `prev_addr`
scalar, `counter` the `uint8_t i` of `main`. -/
structure MainState where
  mode : VideoMode
  text : List Nat
  gfx : List Nat
  prevAddr : Nat
  counter : Nat
  dataBus : Nat
  busDirOut : Bool
  chip : Chip
deriving DecidableEq, Repr

/-- The 17-bit pin mask of the hot loop: `gpio_get_all() & 0x1FFFF`. -/
def maskedSample (pins : Nat) : Nat := pins &&& 0x1FFFF

/-- The address field of a masked sample: `addr & 0x3FFF` (MA0..MA13). -/
def maOf (p : Nat) : Nat := p &&& 0x3FFF

/-- The row field of a masked sample: `addr >> 14` (RA0..RA2). -/
def raOf (p : Nat) : Nat := p >>> 14

/-- The font row index computed in the Text branch of
`process_video_address`: `glyph * 8 + row`. -/
def fontIndex (glyph row : Nat) : Nat := glyph * 8 + row

/-- `init_test_patterns`: text cells get `0x20 + (i % 96)`, bitmap bytes
get `i & 0xFF`. -/
def init_test_patterns (s : MainState) : MainState :=
  { s with
      text := (List.range TEXT_BUFFER_SIZE).map (fun i => 0x20 + i % 96),
      gfx := (List.range GRAPHICS_BUFFER_SIZE).map (fun i => i % 256) }

/-- `mc6845_write_register` of `main.c`: set the data bus to Output, select
the chip in write mode, strobe the register index (masked to 5 bits) into
the address latch, strobe the value into the selected register, deselect.
The trace records the direction set, the two data-bus writes, the two
enable pulses and the completion label. -/
def mc6845_write_register (s : MainState) (reg value : Nat) :
    MainState × List Event :=
  let s1 := { s with busDirOut := true }
  let s2 := { s1 with
                dataBus := reg % 32,
                chip := s1.chip.onEnableFall false false false (reg % 32) }
  let s3 := { s2 with
                dataBus := value % 256,
                chip := s2.chip.onEnableFall false false true (value % 256) }
  (s3, [.dataBusSetDir true, .dataBusWrite (reg % 32)] ++ pulseTrace ++
       [.dataBusWrite (value % 256)] ++ pulseTrace ++
       [.regWrite (reg % 32) (value % 256)])

/-- `process_video_address`: in Text mode look up the glyph code at
`address` in the text store and drive the font byte at
`glyph * 8 + row`; in Graphics mode drive the bitmap byte at `address`.
An out-of-bounds store read is undefined behaviour in the source and
yields `none`. `data_bus_write` masks the driven value to 8 bits. -/
def process_video_address (font : Nat → Nat) (s : MainState)
    (address row : Nat) : Option (MainState × List Event) :=
  match s.mode with
  | .text =>
      s.text[address]?.map (fun glyph =>
        ({ s with dataBus := font (fontIndex glyph row) % 256 },
         [.dataBusWrite (font (fontIndex glyph row) % 256)]))
  | .graphics =>
      s.gfx[address]?.map (fun b =>
        ({ s with dataBus := b % 256 }, [.dataBusWrite (b % 256)]))

/-- The command dispatch of the hot loop (`getchar_timeout_us(0)` result):
`some b` is a received byte, `none` the timeout result. -/
def handle_command (s : MainState) (c : Option Nat) : MainState :=
  if c = some 116 then { s with mode := .text }
  else if c = some 103 then { s with mode := .graphics }
  else if c = some 114 then init_test_patterns s
  else s

/-- The unconditional tail of every loop iteration: the command check,
then `mc6845_write_register(15, i++)`, then `busy_wait_ms(100)`. -/
def loopTail (s1 : MainState) (c : Option Nat) : MainState × List Event :=
  let s2 := handle_command s1 c
  let w := mc6845_write_register s2 15 s2.counter
  ({ w.1 with counter := (s2.counter + 1) % 256 },
   w.2 ++ [.busyWaitMs 100])

/-- One iteration of the `while (1)` loop of `main`: sample and mask the
pins; if the masked sample differs from `prev_addr`, remember it and
dispatch on (address, row); then run the unconditional tail. `none`
means the iteration hit undefined behaviour (an out-of-bounds store read). -/
def loopIter (font : Nat → Nat) (s : MainState) (pins : Nat)
    (c : Option Nat) : Option (MainState × List Event) :=
  let p := maskedSample pins
  if p ≠ s.prevAddr then
    (process_video_address font { s with prevAddr := p } (maOf p) (raOf p)).map
      (fun q => let t := loopTail q.1 c; (t.1, q.2 ++ t.2))
  else
    let t := loopTail s c
    some (t.1, t.2)

/-- The register-programming part of `init_all_gpio`: after configuring the
pin directions (data-bus group to Output), write the sixteen registers of
the `mc6845_cga_80x25` preset in ascending order. -/
def init_all_gpio (s : MainState) : MainState × List Event :=
  let s0 := { s with busDirOut := true }
  (List.range 16).foldl
    (fun (p : MainState × List Event) r =>
      let q := mc6845_write_register p.1 r (mc6845_cga_80x25.getD r 0)
      (q.1, p.2 ++ q.2))
    (s0, [.dataBusSetDir true])

/-- The global variables of `main.c` at program start (C statics are
zero-initialized; `current_video_mode` starts as `VIDEO_MODE_TEXT`). -/
def startState : MainState :=
  { mode := .text,
    text := List.replicate TEXT_BUFFER_SIZE 0,
    gfx := List.replicate GRAPHICS_BUFFER_SIZE 0,
    prevAddr := 0,
    counter := 0,
    dataBus := 0,
    busDirOut := false,
    chip := chipPowerOn }

/-- The startup sequence of `main` before the loop: `init_all_gpio()`,
`init_test_patterns()`, `prev_addr = 0xFFFFFFFF`, `i = 0`. -/
def boot : MainState × List Event :=
  let p := init_all_gpio startState
  ({ init_test_patterns p.1 with prevAddr := 0xFFFFFFFF, counter := 0 },
   p.2)

/-- Run the hot loop over a list of per-iteration inputs (pin snapshot and
optional command byte), accumulating the trace. -/
def runLoop (font : Nat → Nat) (s : MainState) :
    List (Nat × Option Nat) → Option (MainState × List Event)
  | [] => some (s, [])
  | (pins, c) :: rest =>
      match loopIter font s pins c with
      | none => none
      | some q => (runLoop font q.1 rest).map (fun w => (w.1, q.2 ++ w.2))

/-- A full program run: boot, then the given loop iterations. -/
def run (font : Nat → Nat) (ins : List (Nat × Option Nat)) :
    Option (MainState × List Event) :=
  (runLoop font boot.1 ins).map (fun w => (w.1, boot.2 ++ w.2))

end Main

namespace Demo

/-- The `mc6845_defaults` preset table of the demo program. -/
def mc6845_defaults : List Nat :=
  [0x64, 0x50, 0x54, 0x07, 0x1B, 0x02, 0x18, 0x19,
   0x00, 0x0A, 0x00, 0x0B, 0x00, 0x80, 0x00, 0x80]

/-- `mc6845_write_register` of the demo program, acting on the modelled
controller: address phase (bus to Output, CS low, RW low, RS low, drive
the 5-bit index, pulse E), data phase (RS high, drive the value, pulse E),
deselect. -/
def mc6845_write_register (c : Chip) (reg value : Nat) : Chip × List Event :=
  let c1 := c.onEnableFall false false false (reg % 32)
  let c2 := c1.onEnableFall false false true (value % 256)
  (c2, [.dataBusSetDir true, .dataBusWrite (reg % 32)] ++ pulseTrace ++
       [.dataBusWrite (value % 256)] ++ pulseTrace ++
       [.regWrite (reg % 32) (value % 256)])

/-- `mc6845_read_register` of the demo program: same address phase, then
the bus is flipped to Input, RW and RS go high, E is pulsed and the bus is
sampled. The sampled value is what the modelled controller drives: the
selected register when readable, otherwise a floating bus (`none`). -/
def mc6845_read_register (c : Chip) (reg : Nat) :
    Chip × List Event × Option Nat :=
  let c1 := c.onEnableFall false false false (reg % 32)
  (c1,
   [.dataBusSetDir true, .dataBusWrite (reg % 32)] ++ pulseTrace ++
     [.dataBusSetDir false] ++ pulseTrace ++ [.regRead (reg % 32)],
   c1.busOutput false true true)

/-- The register-programming loop of `mc6845_init_chip`: write the sixteen
defaults in ascending order, with a 10 microsecond settle delay after each. -/
def mc6845_init_chip (c : Chip) : Chip × List Event :=
  (List.range 16).foldl
    (fun (p : Chip × List Event) r =>
      let q := mc6845_write_register p.1 r (mc6845_defaults.getD r 0)
      (q.1, p.2 ++ q.2 ++ [.sleepUs 10]))
    (c, [])

end Demo

/-! Concrete states used by witnesses and counterexamples. -/

/-- A small concrete machine state used by witnesses: Text mode, a
six-entry text store, no address observed yet. -/
def probeState : Main.MainState :=
  { mode := .text, text := [3, 4, 5, 6, 7, 8], gfx := [9, 10],
    prevAddr := 999, counter := 7, dataBus := 0, busDirOut := true,
    chip := chipPowerOn }

/-! Helper lemmas about the embedded operations. -/

theorem handle_command_counter (s : Main.MainState) (c : Option Nat) :
    (Main.handle_command s c).counter = s.counter := by
  unfold Main.handle_command
  split
  · rfl
  · split
    · rfl
    · split
      · rfl
      · rfl

theorem process_shape (font : Nat → Nat) (s : Main.MainState) (a r : Nat)
    (q : Main.MainState × List Event)
    (h : Main.process_video_address font s a r = some q) :
    q.2 = [Event.dataBusWrite q.1.dataBus] ∧
    q.1.counter = s.counter ∧ q.1.text = s.text ∧ q.1.gfx = s.gfx ∧
    q.1.mode = s.mode ∧ q.1.busDirOut = s.busDirOut := by
  cases hm : s.mode <;>
    simp only [Main.process_video_address, hm, Option.map_eq_some'] at h <;>
    (obtain ⟨g, hg, hq⟩ := h; subst hq; simp)

theorem loopTail_delays (s1 : Main.MainState) (c : Option Nat) :
    (Main.loopTail s1 c).2.filter Event.isDelay =
      [.sleepUs 1, .sleepUs 1, .sleepUs 1, .sleepUs 1, .busyWaitMs 100] := rfl

theorem loopTail_regWrites (s1 : Main.MainState) (c : Option Nat) :
    regWrites (Main.loopTail s1 c).2 =
      [.regWrite 15 (s1.counter % 256)] := by
  have h := handle_command_counter s1 c
  simp only [Main.loopTail, Main.mc6845_write_register, regWrites, h]
  rfl

theorem loopTail_dirIn (s1 : Main.MainState) (c : Option Nat) :
    (Main.loopTail s1 c).2.filter Event.isDirIn = [] := rfl

theorem loopTail_regReads (s1 : Main.MainState) (c : Option Nat) :
    (Main.loopTail s1 c).2.filter Event.isRegRead = [] := rfl

theorem loopTail_busDirOut (s1 : Main.MainState) (c : Option Nat) :
    (Main.loopTail s1 c).1.busDirOut = true := rfl

theorem regWrites_append (a b : List Event) :
    regWrites (a ++ b) = regWrites a ++ regWrites b := List.filter_append a b

theorem regWrites_dataBusWrite (v : Nat) :
    regWrites [Event.dataBusWrite v] = [] := rfl

theorem regWrites_cons_dataBusWrite (v : Nat) (tr : List Event) :
    regWrites (Event.dataBusWrite v :: tr) = regWrites tr := rfl

/-! Claim theorems. -/

/-- Claim C5: after `init_test_patterns` (the `reset_pattern` operation),
every text cell `a` in range holds `0x20 + (a mod 96)` and every bitmap
byte `a` in range holds `a mod 256`. -/
theorem c5_reset_pattern_formula (s : Main.MainState) (a : Nat) :
    (a < Main.TEXT_BUFFER_SIZE →
      (Main.init_test_patterns s).text[a]? = some (0x20 + a % 96)) ∧
    (a < Main.GRAPHICS_BUFFER_SIZE →
      (Main.init_test_patterns s).gfx[a]? = some (a % 256)) := by
  constructor <;> intro h <;>
    simp [Main.init_test_patterns, List.getElem?_map, List.getElem?_range, h]

/-- Witness for C5 at text address 100 and bitmap address 300. -/
theorem c5_reset_pattern_formula_witness :
    (Main.init_test_patterns Main.startState).text[100]? = some (0x20 + 100 % 96) ∧
    (Main.init_test_patterns Main.startState).gfx[300]? = some (300 % 256) :=
  ⟨(c5_reset_pattern_formula Main.startState 100).1 (by decide),
   (c5_reset_pattern_formula Main.startState 300).2 (by decide)⟩

/-- Claim C6: the command dispatch maps byte `'t'` (116) to Text mode,
`'g'` (103) to Graphics mode, `'r'` (114) to a regeneration of both
stores (which leaves the mode unchanged), and any other byte — or no byte
at all — leaves the state untouched. -/
theorem c6_command_dispatch (s : Main.MainState) :
    Main.handle_command s (some 116) = { s with mode := .text } ∧
    Main.handle_command s (some 103) = { s with mode := .graphics } ∧
    Main.handle_command s (some 114) = Main.init_test_patterns s ∧
    (Main.init_test_patterns s).mode = s.mode ∧
    (∀ b : Nat, b ≠ 116 → b ≠ 103 → b ≠ 114 →
      Main.handle_command s (some b) = s) ∧
    Main.handle_command s none = s := by
  refine ⟨rfl, rfl, rfl, rfl, ?_, rfl⟩
  intro b h1 h2 h3
  simp [Main.handle_command, h1, h2, h3]

/-- Witness for C6 at the concrete state `probeState` and the unrecognized
byte 120. -/
theorem c6_command_dispatch_witness :
    Main.handle_command probeState (some 120) = probeState :=
  (c6_command_dispatch probeState).2.2.2.2.1 120 (by decide) (by decide)
    (by decide)

/-- Claim C8: `process_video_address` is idempotent — run twice on the same
(address, row) with the same mode and store contents, the second run
returns exactly the first run's state and trace (same output byte), and
neither run mutates the mode or the stores. -/
theorem c8_dispatch_idempotent (font : Nat → Nat) (s : Main.MainState)
    (address row : Nat)
    (h : (Main.process_video_address font s address row).isSome = true) :
    (Main.process_video_address font s address row).bind
        (fun p => Main.process_video_address font p.1 address row) =
      Main.process_video_address font s address row ∧
    (Main.process_video_address font s address row).map
        (fun p => (p.1.mode, p.1.text, p.1.gfx)) =
      some (s.mode, s.text, s.gfx) := by
  cases hm : s.mode
  case text =>
    cases hg : s.text[address]?
    · simp [Main.process_video_address, hm, hg] at h
    · simp [Main.process_video_address, hm, hg]
  case graphics =>
    cases hg : s.gfx[address]?
    · simp [Main.process_video_address, hm, hg] at h
    · simp [Main.process_video_address, hm, hg]

/-- Witness for C8 at the concrete state `probeState`, address 2, row 3. -/
theorem c8_dispatch_idempotent_witness :
    (Main.process_video_address (fun i => i % 256) probeState 2 3).bind
        (fun p => Main.process_video_address (fun i => i % 256) p.1 2 3) =
      Main.process_video_address (fun i => i % 256) probeState 2 3 ∧
    (Main.process_video_address (fun i => i % 256) probeState 2 3).map
        (fun p => (p.1.mode, p.1.text, p.1.gfx)) =
      some (probeState.mode, probeState.text, probeState.gfx) :=
  c8_dispatch_idempotent (fun i => i % 256) probeState 2 3 (by decide)

/-- Claim C10: the font row index `glyph * 8 + row` computed by the Text
branch stays below the 2048-byte font table for every 8-bit glyph code
and every row produced by the loop's decomposition of a 17-bit masked
sample. -/
theorem c10_font_index_in_table (pins glyph : Nat) (hg : glyph < 256) :
    Main.fontIndex glyph (Main.raOf (Main.maskedSample pins)) <
      Main.CGA_FONT_SIZE := by
  have h1 : Main.maskedSample pins ≤ 131071 := Nat.and_le_right
  have h2 : Main.raOf (Main.maskedSample pins) ≤ 7 := by
    have h3 : Main.maskedSample pins / 16384 ≤ 131071 / 16384 :=
      Nat.div_le_div_right h1
    simpa [Main.raOf, Nat.shiftRight_eq_div_pow] using h3
  simp only [Main.fontIndex, Main.CGA_FONT_SIZE]
  omega

/-- Witness for C10 at the extremes: the all-ones 17-bit sample and
glyph code 255. -/
theorem c10_font_index_in_table_witness :
    (255 : Nat) < 256 ∧
    Main.fontIndex 255 (Main.raOf (Main.maskedSample 131071)) <
      Main.CGA_FONT_SIZE :=
  ⟨by decide, c10_font_index_in_table 131071 255 (by decide)⟩

/-- Claim C2, counterexample: a concrete iteration of the hot loop (state
`probeState`, pin snapshot 1, no pending command byte) executes delay
primitives — its trace's delay events are not empty — refuting the claim
that no iteration invokes a suspension primitive. -/
theorem c2_counterexample :
    (Main.loopIter (fun _ => 0) probeState 1 none).map
        (fun p => (p.2.filter Event.isDelay).isEmpty) = some false := by
  decide

/-- Claim C2 (amended): every iteration of the hot loop executes exactly
the delays of its unconditional tail — the four 1 microsecond enable-pulse
holds of the register-15 write and the trailing 100 ms busy wait — while
the address-sampling dispatch itself (`process_video_address`) performs no
delay. -/
theorem c2_loop_delay_profile (font : Nat → Nat) (s : Main.MainState)
    (pins : Nat) (c : Option Nat)
    (h : (Main.loopIter font s pins c).isSome = true) :
    (Main.loopIter font s pins c).map (fun p => p.2.filter Event.isDelay) =
      some [.sleepUs 1, .sleepUs 1, .sleepUs 1, .sleepUs 1,
            .busyWaitMs 100] ∧
    ∀ a r q, Main.process_video_address font s a r = some q →
      q.2.filter Event.isDelay = [] := by
  constructor
  · by_cases hp : Main.maskedSample pins ≠ s.prevAddr
    · simp only [Main.loopIter, if_pos hp] at h ⊢
      cases hq : Main.process_video_address font
          { s with prevAddr := Main.maskedSample pins }
          (Main.maOf (Main.maskedSample pins))
          (Main.raOf (Main.maskedSample pins)) with
      | none => simp [hq] at h
      | some q =>
          obtain ⟨ht, -⟩ := process_shape _ _ _ _ _ hq
          simp [hq, List.filter_append, ht, Event.isDelay,
                loopTail_delays]
    · simp only [Main.loopIter, if_neg hp]
      simp [loopTail_delays]
  · intro a r q hq
    obtain ⟨ht, -⟩ := process_shape _ _ _ _ _ hq
    simp [ht, Event.isDelay]

/-- Witness for C2 (amended) at the concrete state `probeState`. -/
theorem c2_loop_delay_profile_witness :
    (Main.loopIter (fun _ => 0) probeState 0 none).map
        (fun p => p.2.filter Event.isDelay) =
      some [.sleepUs 1, .sleepUs 1, .sleepUs 1, .sleepUs 1,
            .busyWaitMs 100] :=
  (c2_loop_delay_profile (fun _ => 0) probeState 0 none (by decide)).1

/-- Claim C3, counterexample: a concrete iteration of the hot loop (state
`probeState`, whose iteration counter is 7) performs a register write —
register 15, value 7 from the counter — refuting the claim that no loop
iteration invokes a register-access operation. -/
theorem c3_counterexample :
    (Main.loopIter (fun _ => 0) probeState 2 none).map
        (fun p => regWrites p.2) = some [.regWrite 15 7] := by
  decide

/-- Claim C3 (amended): for the lifetime of the loop the data bus stays in
Output direction — no iteration ever switches it to Input, and it is
asserted Output at the iteration's end — and no register read occurs; but
each iteration performs exactly one register write, of register 15 with
the low 8 bits of the iteration counter. -/
theorem c3_bus_direction_profile (font : Nat → Nat) (s : Main.MainState)
    (pins : Nat) (c : Option Nat)
    (h : (Main.loopIter font s pins c).isSome = true) :
    (Main.loopIter font s pins c).map
        (fun p => (p.2.filter Event.isDirIn, p.2.filter Event.isRegRead,
                   regWrites p.2, p.1.busDirOut)) =
      some ([], [], [.regWrite 15 (s.counter % 256)], true) := by
  by_cases hp : Main.maskedSample pins ≠ s.prevAddr
  · simp only [Main.loopIter, if_pos hp] at h ⊢
    cases hq : Main.process_video_address font
        { s with prevAddr := Main.maskedSample pins }
        (Main.maOf (Main.maskedSample pins))
        (Main.raOf (Main.maskedSample pins)) with
    | none => simp [hq] at h
    | some q =>
        obtain ⟨ht, hcnt, -⟩ := process_shape _ _ _ _ _ hq
        have hcnt2 : q.1.counter = s.counter := hcnt.trans rfl
        simp [hq, List.filter_append, ht, Event.isDirIn, Event.isRegRead,
              loopTail_dirIn, loopTail_regReads, loopTail_busDirOut,
              regWrites_append, regWrites_dataBusWrite,
              regWrites_cons_dataBusWrite, loopTail_regWrites, hcnt2]
  · simp only [Main.loopIter, if_neg hp]
    simp [loopTail_dirIn, loopTail_regReads, loopTail_busDirOut,
          loopTail_regWrites s c]

/-- Witness for C3 (amended) at the concrete state `probeState`
(counter 7). -/
theorem c3_bus_direction_profile_witness :
    (Main.loopIter (fun _ => 0) probeState 0 none).map
        (fun p => (p.2.filter Event.isDirIn, p.2.filter Event.isRegRead,
                   regWrites p.2, p.1.busDirOut)) =
      some ([], [], [.regWrite 15 7], true) :=
  c3_bus_direction_profile (fun _ => 0) probeState 0 none (by decide)

/-- Claim C1 (failing evaluation): the loop's 14-bit mask does not bound
the address into the 2000-entry text store. At pin sample 2000 the masked
address is 2000 unchanged, which is not a valid index of the text store
(size 2000, valid indices 0..1999): the booted machine's dispatch performs
an out-of-bounds read and the iteration is undefined (`none`). -/
theorem c1_masked_address_out_of_bounds :
    Main.maOf (Main.maskedSample 2000) = 2000 ∧
    Main.TEXT_BUFFER_SIZE ≤ 2000 ∧
    Main.boot.1.mode = Main.VideoMode.text ∧
    Main.boot.1.text.length = Main.TEXT_BUFFER_SIZE ∧
    Main.loopIter (fun _ => 0) Main.boot.1 2000 none = none := by
  have hma : Main.maOf (Main.maskedSample 2000) = 2000 := by decide
  have htext : Main.boot.1.text =
      (List.range Main.TEXT_BUFFER_SIZE).map (fun i => 0x20 + i % 96) := rfl
  have hlen : Main.boot.1.text.length = Main.TEXT_BUFFER_SIZE := by
    rw [htext, List.length_map, List.length_range]
  have hget : Main.boot.1.text[(2000 : Nat)]? = none :=
    List.getElem?_eq_none (by rw [hlen]; decide)
  have hprev : Main.boot.1.prevAddr = 0xFFFFFFFF := rfl
  have hmode : Main.boot.1.mode = Main.VideoMode.text := rfl
  have hp : Main.maskedSample 2000 ≠ Main.boot.1.prevAddr := by
    rw [hprev]; decide
  refine ⟨hma, by decide, hmode, hlen, ?_⟩
  simp only [Main.loopIter, if_pos hp]
  simp [Main.process_video_address, hma, hmode, hget]

/-- Claim C4, counterexample: at pin sample 8000 in Graphics mode there is
no bitmap-store entry at the masked address (the store has 8000 entries,
valid indices 0..7999), so the dispatch cannot write the byte the claim
describes: the iteration hits an out-of-bounds read and is undefined. -/
theorem c4_counterexample :
    Main.GRAPHICS_BUFFER_SIZE ≤ 8000 ∧
    Main.loopIter (fun _ => 0)
      { Main.boot.1 with mode := .graphics } 8000 none = none := by
  have hgfx : Main.boot.1.gfx =
      (List.range Main.GRAPHICS_BUFFER_SIZE).map (fun i => i % 256) := rfl
  have hlen : Main.boot.1.gfx.length = Main.GRAPHICS_BUFFER_SIZE := by
    rw [hgfx, List.length_map, List.length_range]
  have hget : Main.boot.1.gfx[(8000 : Nat)]? = none :=
    List.getElem?_eq_none (by rw [hlen]; decide)
  have hma : Main.maOf (Main.maskedSample 8000) = 8000 := by decide
  have hprev : Main.boot.1.prevAddr = 0xFFFFFFFF := rfl
  have hp : Main.maskedSample 8000 ≠
      (Main.MainState.mk Main.boot.1.mode Main.boot.1.text Main.boot.1.gfx
        Main.boot.1.prevAddr Main.boot.1.counter Main.boot.1.dataBus
        Main.boot.1.busDirOut Main.boot.1.chip).prevAddr := by
    rw [hprev]; decide
  refine ⟨by decide, ?_⟩
  simp only [Main.loopIter]
  rw [if_pos (by simpa using hp)]
  simp [Main.process_video_address, hma, hget]

/-- Claim C4 (amended): for every pin snapshot whose masked 17-bit value
is new and whose low-14-bit address field falls inside the active store,
the dispatch writes to the output bus the font byte at
`glyph * 8 + row` (Text mode, `glyph` the text-store entry at the
address, `row` the high 3 bits) or the bitmap-store byte at the address
(Graphics mode, row unused); the write is the first event of the
iteration's trace. -/
theorem c4_dispatch_output (font : Nat → Nat) (s : Main.MainState)
    (pins : Nat) (c : Option Nat)
    (hfont : ∀ i, font i < 256)
    (hnew : Main.maskedSample pins ≠ s.prevAddr) :
    (∀ g, s.mode = .text →
      s.text[Main.maOf (Main.maskedSample pins)]? = some g →
      (Main.loopIter font s pins c).map (fun p => p.2.head?) =
        some (some (.dataBusWrite
          (font (Main.fontIndex g (Main.raOf (Main.maskedSample pins))))))) ∧
    (∀ b, s.mode = .graphics → b < 256 →
      s.gfx[Main.maOf (Main.maskedSample pins)]? = some b →
      (Main.loopIter font s pins c).map (fun p => p.2.head?) =
        some (some (.dataBusWrite b))) := by
  constructor
  · intro g hm hg
    simp only [Main.loopIter, if_pos hnew]
    simp [Main.process_video_address, hm, hg, Nat.mod_eq_of_lt (hfont _)]
  · intro b hm hb hg
    simp only [Main.loopIter, if_pos hnew]
    simp [Main.process_video_address, hm, hg, Nat.mod_eq_of_lt hb]

/-- Witness for C4 (amended): at `probeState` (Text mode), pin sample 5,
the glyph code at address 5 is 8, the row is 0, and the dispatch drives
`font (8 * 8 + 0) = 65` for the font `fun i => (i + 1) % 256`. -/
theorem c4_dispatch_output_witness :
    (Main.loopIter (fun i => (i + 1) % 256) probeState 5 none).map
        (fun p => p.2.head?) = some (some (.dataBusWrite 65)) :=
  (c4_dispatch_output (fun i => (i + 1) % 256) probeState 5 none
      (fun i => Nat.mod_lt _ (by decide)) (by decide)).1 8 rfl (by decide)

/-- Claim C7: initialization writes the sixteen configuration registers in
strictly ascending index order 0 through 15, each exactly once, with the
values of the selected preset table, and these are the first sixteen
register writes of any program run (the sequence completes before the
loop contributes any event). Holds for the `main.c` initialization
(`init_all_gpio`, 80x25 preset) and for the demo initialization
(`mc6845_init_chip`, default preset). -/
theorem c7_init_ascending_register_writes :
    regWrites Main.boot.2 =
      (List.range 16).map
        (fun r => Event.regWrite r (Main.mc6845_cga_80x25.getD r 0)) ∧
    (∀ font ins q, Main.run font ins = some q →
      (regWrites q.2).take 16 =
        (List.range 16).map
          (fun r => Event.regWrite r (Main.mc6845_cga_80x25.getD r 0))) ∧
    regWrites (Demo.mc6845_init_chip chipPowerOn).2 =
      (List.range 16).map
        (fun r => Event.regWrite r (Demo.mc6845_defaults.getD r 0)) := by
  refine ⟨by decide, ?_, by decide⟩
  intro font ins q h
  simp only [Main.run, Option.map_eq_some'] at h
  obtain ⟨w, hw, hq⟩ := h
  subst hq
  have hA : regWrites Main.boot.2 =
      (List.range 16).map
        (fun r => Event.regWrite r (Main.mc6845_cga_80x25.getD r 0)) := by
    decide
  have hlen : (regWrites Main.boot.2).length = 16 := by rw [hA]; simp
  show (regWrites (Main.boot.2 ++ w.2)).take 16 = _
  rw [regWrites_append, ← hA, List.take_left' hlen]

/-- Witness for C7 at the empty run (no loop iterations). -/
theorem c7_init_ascending_register_writes_witness :
    (regWrites (Main.boot.2 ++ [])).take 16 =
      (List.range 16).map
        (fun r => Event.regWrite r (Main.mc6845_cga_80x25.getD r 0)) :=
  c7_init_ascending_register_writes.2.1 (fun _ => 0) []
    (Main.boot.1, Main.boot.2 ++ []) rfl

/-- Claim C9: after the demo initialization pushes the sixteen default
register values through the write handshake, reading back any register of
the modelled readable subset (eight registers) through the read handshake
returns exactly the value that was written to it. -/
theorem c9_register_readback :
    ((List.range 32).filter Chip.readable).length = 8 ∧
    ∀ r, Chip.readable r = true →
      (Demo.mc6845_read_register (Demo.mc6845_init_chip chipPowerOn).1 r).2.2 =
        some (Demo.mc6845_defaults.getD r 0) := by
  refine ⟨by decide, ?_⟩
  intro r h
  simp only [Chip.readable, decide_eq_true_eq] at h
  obtain ⟨h1, h2⟩ := h
  interval_cases r <;> decide

/-- Witness for C9 at register 14 (Cursor Address High, preset value 0). -/
theorem c9_register_readback_witness :
    Chip.readable 14 = true ∧
    (Demo.mc6845_read_register (Demo.mc6845_init_chip chipPowerOn).1 14).2.2 =
      some (Demo.mc6845_defaults.getD 14 0) :=
  ⟨by decide, c9_register_readback.2 14 (by decide)⟩
